import Mathlib

/-!
Shallow embedding of the pattern-driven todos frontend (JavaScript).

Source layout:
  * `src/js/todo/classes.js` — `TodoItem` (value object) and `TodoList`
    (singleton store backed by a JS `Set` named `#data`).
  * `src/js/todo/mixin.js` — `observerMixin` with a module-level `Set`
    named `observers`, and `addObserver` / `removeObserver` / `notify`.
  * `src/js/todo/render.js` / command module — `Command`, `COMMANDS`,
    `CE.execute`, and the `LocalStorage` persistence adapter.

Modelling conventions:
  * A JS `Set` of objects is keyed by reference identity and iterates in
    insertion order; we model the store contents as a `List` of stored
    objects in insertion order.  Two stored objects constructed by two
    separate `new TodoItem(...)` calls are distinct set members even when
    their `text` fields agree, which the list model represents as two
    list entries (possibly equal as Lean values).
  * `notify()` invocation counts are threaded through each operation as a
    `Nat` so that "notifies exactly once" claims are statable.
  * JS exceptions are modelled with `Except JsError`.
-/

/-- JS runtime errors relevant to this program: `TypeError` (property
access on `null`/`undefined`, destructuring `null`) and `SyntaxError`
(raised by `JSON.parse` on malformed input). -/
inductive JsError where
  | typeError
  | syntaxError
deriving DecidableEq, Repr

/-- Embeds `TodoItem` from `src/js/todo/classes.js`: the constructor
stores only `text` (`constructor(text) { this.text = text; }`); any
second argument is ignored. -/
structure TodoItem where
  text : String
deriving DecidableEq, Repr

/-- Embeds `TodoItem.equals`: `equals(other) { return this.text === other.text; }`
for a non-null `other` that has a `text` field. -/
def TodoItem.equals (self other : TodoItem) : Bool :=
  self.text == other.text

namespace TodoList

/-- Embeds `TodoList.exists`:
`exists(item) { return [...this.#data].some((todo) => todo.equals(item)); }`.
The store `#data` is passed explicitly as the insertion-ordered list of
stored items. -/
def existsItem (data : List TodoItem) (item : TodoItem) : Bool :=
  data.any (fun todo => todo.equals item)

/-- Embeds `TodoList.add`:
```
add(item) {
  if (this.exists(item)) return false;
  this.#data.add(item);
  this.notify();
  return true;
}
```
Returns the new store contents, the returned boolean, and the number of
`notify()` calls made.  When the `exists` guard fails, `item` is value-equal
to no stored element, hence also reference-equal to none, so `Set.add`
appends it in insertion order. -/
def add (data : List TodoItem) (item : TodoItem) : List TodoItem × Bool × Nat :=
  if existsItem data item then (data, false, 0)
  else (data ++ [item], true, 1)

/-- Embeds `TodoList.findByText`:
`findByText(text) { return [...this.#data].find((item) => item.text === text); }` —
the first stored item (in insertion order) whose `text` equals the argument. -/
def findByText (data : List TodoItem) (text : String) : Option TodoItem :=
  data.find? (fun item => item.text == text)

/-- Embeds `TodoList.deleteByText`:
```
deleteByText(text) {
  const item = this.findByText(text);
  if (!item) return false;
  this.#data.delete(item);
  this.notify();
  return true;
}
```
A found `TodoItem` object is always truthy.  `Set.delete(item)` removes
that exact object; since `findByText` returns the first item whose text
matches, this is the first matching occurrence, i.e. `List.eraseP`. -/
def deleteByText (data : List TodoItem) (text : String) : List TodoItem × Bool × Nat :=
  match data.find? (fun item => item.text == text) with
  | none => (data, false, 0)
  | some _ => (data.eraseP (fun item => item.text == text), true, 1)

end TodoList

/-- Shape of a record handed to `replaceList` (e.g. parsed from persisted
JSON): it carries `text` plus possibly extraneous fields; the code reads
`item.text` and `item.completed`, and `completed` stands in for any
extraneous field since the `TodoItem` constructor ignores it. -/
structure RawRecord where
  text : String
  completed : Bool
deriving DecidableEq, Repr

namespace TodoList

/-- Embeds `TodoList.replaceList`:
```
replaceList(list) {
  this.#data.clear();
  const items = Array.isArray(list) ? list : [...list];
  items.forEach((item) => {
    const todoItem = new TodoItem(item.text, item.completed);
    this.#data.add(todoItem);
  });
  this.notify();
}
```
The previous store contents (first argument) are discarded by `clear()`.
Each iteration constructs a fresh `TodoItem` object (the constructor uses
only `item.text`); a fresh object is reference-equal to no set member, so
`Set.add` appends it unconditionally — records with duplicate `text`
values yield distinct set members.  `notify()` runs exactly once. -/
def replaceList (_data : List TodoItem) (list : List RawRecord) :
    List TodoItem × Nat :=
  (list.map (fun item => TodoItem.mk item.text), 1)

/-- Embeds `TodoList.add` invoked with a `null` payload.  The store holds
proper `TodoItem` objects; the result store may additionally hold the
inserted `null`, hence `Option TodoItem` entries (`none` is `null`).
`exists(null)` evaluates `[...#data].some((todo) => todo.equals(null))`:
on a non-empty store the predicate runs on the first element and
`this.text === other.text` reads `null.text`, raising `TypeError`; on an
empty store `some` never invokes the predicate, `exists` returns `false`,
and `add` inserts `null` into the set, calls `notify()`, and returns
`true`. -/
def addNull (data : List TodoItem) :
    Except JsError (List (Option TodoItem) × Bool × Nat) :=
  match data with
  | [] => .ok ([none], true, 1)
  | _ :: _ => .error .typeError

end TodoList

/-- Value-uniqueness of the store: at most one stored entry per distinct
`text` value. -/
def valueUnique (data : List TodoItem) : Prop :=
  (data.map TodoItem.text).Nodup

instance (data : List TodoItem) : Decidable (valueUnique data) := by
  unfold valueUnique; infer_instance

/-- An observer callback reference from `src/js/todo/mixin.js`.  Function
references are compared by identity in the `observers` set; `id`
distinguishes references, and `throws` records whether invoking the
callback raises an error. -/
structure Callback where
  id : Nat
  throws : Bool
deriving DecidableEq, Repr

namespace observerMixin

/-- Embeds `observerMixin.addObserver`: `addObserver(obs) { observers.add(obs); }`.
`observers` is a JS `Set`, modelled as its insertion-ordered element
list: adding a present member is a no-op, otherwise the member is
appended. -/
def addObserver (obs : List Callback) (c : Callback) : List Callback :=
  if obs.contains c then obs else obs ++ [c]

/-- Embeds `observerMixin.removeObserver`:
`removeObserver(obs) { observers.delete(obs); }`. -/
def removeObserver (obs : List Callback) (c : Callback) : List Callback :=
  obs.eraseP (fun x => x == c)

/-- Embeds `observerMixin.notify`: `notify() { observers.forEach((obs) => obs()); }`.
`forEach` invokes each callback in insertion order with no surrounding
try/catch, so a callback that raises terminates the iteration and the
error propagates out of `notify`.  Returns the callbacks actually
invoked, in order, and whether an error propagated. -/
def notifyRun : List Callback → List Callback × Bool
  | [] => ([], false)
  | c :: cs =>
      if c.throws then ([c], true)
      else
        let r := notifyRun cs
        (c :: r.1, r.2)

end observerMixin

/-- Embeds `Command` objects as built by the app: `new Command(type, payload)`
with `type` one of the `COMMANDS` values (`"add"`, `"deleteByText"`,
`"UPDATE_TODO"`, `"CLEAR_TODO"`) or any other string, and the payload
typed as the `COMMANDS` enum documents (`ADD_TODO` carries a `TodoItem`,
`REMOVE_TODO_BY_TEXT` carries a text).  `CE.execute` reads the payload
only in the `add` and `deleteByText` branches. -/
inductive Command where
  | add (payload : TodoItem)
  | deleteByText (payload : String)
  | update
  | clear
  | unknown (type : String)
deriving DecidableEq, Repr

namespace CE

/-- Embeds `CE.execute`:
```
execute(command) {
  const { type, payload } = command;
  switch (type) {
    case COMMANDS.ADD_TODO:             return todoList.add(payload);
    case COMMANDS.REMOVE_TODO_BY_TEXT:  return todoList.deleteByText(payload);
    case COMMANDS.UPDATE_TODO:          break;
    case COMMANDS.CLEAR_TODO:           break;
  }
}
```
The `update` and `clear` cases `break` and there is no `default` case, so
those and every unrecognised type fall out of the switch and the function
returns `undefined` (`none` here) without touching the store or
notifying.  Result: returned value (`none` = `undefined`), new store
contents, number of `notify()` calls. -/
def execute (data : List TodoItem) : Command → Option Bool × List TodoItem × Nat
  | .add payload =>
      let r := TodoList.add data payload
      (some r.2.1, r.1, r.2.2)
  | .deleteByText payload =>
      let r := TodoList.deleteByText data payload
      (some r.2.1, r.1, r.2.2)
  | .update => (none, data, 0)
  | .clear => (none, data, 0)
  | .unknown _ => (none, data, 0)

/-- Embeds `CE.execute` including its first statement
`const { type, payload } = command;`: destructuring `null` or `undefined`
(`none` here) raises a `TypeError` before any routing happens; with an
actual command object the function never throws. -/
def executeChecked (data : List TodoItem) :
    Option Command → Except JsError (Option Bool × List TodoItem × Nat)
  | none => .error .typeError
  | some c => .ok (execute data c)

end CE

/-- State of the external blob store under the fixed key `"todoList"`, as
seen through `localStorage.getItem` and `JSON.parse`:
  * `absent` — `getItem` returned `null` (or the stored string is empty,
    which the truthiness check `if (data)` treats the same way);
  * `records rs` — a non-empty string that `JSON.parse` parses to an
    array of `{text, ...}` records;
  * `malformed` — a non-empty string on which `JSON.parse` raises a
    `SyntaxError`. -/
inductive BlobState where
  | absent
  | records (rs : List RawRecord)
  | malformed
deriving DecidableEq, Repr

namespace LocalStorage

/-- Embeds `LocalStorage.load`:
```
load() {
  const data = localStorage.getItem("todoList");
  if (data) {
    todoList.replaceList(JSON.parse(data));
  }
}
```
There is no try/catch: when the stored blob is malformed, `JSON.parse`
raises a `SyntaxError` that propagates out of `load` (the store is left
untouched, since the raise happens before `replaceList`).  When the key
is absent the guard fails and nothing happens.  Result on success: new
store contents and number of `notify()` calls. -/
def load (stored : BlobState) (data : List TodoItem) :
    Except JsError (List TodoItem × Nat) :=
  match stored with
  | .absent => .ok (data, 0)
  | .records rs => .ok (TodoList.replaceList data rs)
  | .malformed => .error .syntaxError

end LocalStorage

/-! ## Helper lemmas -/

theorem notifyRun_of_no_throw (l : List Callback)
    (h : ∀ x ∈ l, x.throws = false) :
    observerMixin.notifyRun l = (l, false) := by
  induction l with
  | nil => rfl
  | cons c cs ih =>
      have hc : c.throws = false := h c (by simp)
      have hcs : ∀ x ∈ cs, x.throws = false := fun x hx => h x (by simp [hx])
      simp [observerMixin.notifyRun, hc, ih hcs]

theorem existsItem_append_self (data : List TodoItem) (i : TodoItem) :
    TodoList.existsItem (data ++ [i]) i = true := by
  simp [TodoList.existsItem, TodoItem.equals]

theorem find?_some_decomp (p : TodoItem → Bool) :
    ∀ (l : List TodoItem) (j : TodoItem), l.find? p = some j →
      ∃ l₁ l₂, l = l₁ ++ j :: l₂ ∧ (∀ b ∈ l₁, p b = false) ∧
        l.eraseP p = l₁ ++ l₂ := by
  intro l
  induction l with
  | nil => intro j h; simp at h
  | cons x xs ih =>
      intro j h
      by_cases px : p x = true
      · refine ⟨[], xs, ?_, by simp, ?_⟩
        · simp [List.find?, px] at h
          simp [h]
        · simp [List.eraseP_cons, px]
      · have px' : p x = false := by simpa using px
        rw [List.find?_cons_of_neg _ (by simp [px'])] at h
        obtain ⟨l₁, l₂, hl, hb, he⟩ := ih j h
        refine ⟨x :: l₁, l₂, by simp [hl], ?_, ?_⟩
        · intro b hb'
          rcases List.mem_cons.mp hb' with rfl | hmem
          · exact px'
          · exact hb b hmem
        · simp [List.eraseP_cons, px', he]

/-! ## Claims -/

/-- Claim C1, counterexample: `replaceList` does not collapse duplicate
`text` values — `replaceAll([{text:"a"},{text:"a"},{text:"b"}])` leaves
the store with three entries (texts "a","a","b"), not the claimed two. -/
theorem C1_counterexample_duplicates_not_collapsed :
    (TodoList.replaceList []
      [⟨"a", false⟩, ⟨"a", false⟩, ⟨"b", false⟩]).1 =
      [⟨"a"⟩, ⟨"a"⟩, ⟨"b"⟩] ∧
    ¬ ((TodoList.replaceList []
      [⟨"a", false⟩, ⟨"a", false⟩, ⟨"b", false⟩]).1.length = 2) := by
  constructor
  · rfl
  · decide

/-- Claim C1 (amended): `replaceList` clears the collection (the result
does not depend on the previous store contents), re-inserts one fresh
Entry per input record re-constructed from its `text` field (ignoring
extraneous fields such as `completed`), preserving duplicate `text`
values as distinct entries, and calls `notify` exactly once. -/
theorem C1_replaceList_clears_rebuilds_notifies_once
    (st st' : List TodoItem) (rs : List RawRecord) (b : Bool) :
    TodoList.replaceList st rs = TodoList.replaceList st' rs ∧
    (TodoList.replaceList st rs).1.map TodoItem.text = rs.map RawRecord.text ∧
    (TodoList.replaceList st rs).1.length = rs.length ∧
    (TodoList.replaceList st rs).2 = 1 ∧
    TodoList.replaceList st (rs.map (fun r => { r with completed := b })) =
      TodoList.replaceList st rs := by
  refine ⟨rfl, ?_, by simp [TodoList.replaceList], rfl, ?_⟩
  · simp [TodoList.replaceList, Function.comp]
  · simp [TodoList.replaceList, Function.comp]

/-- Claim C2: evaluation of the code at a failing input.  From a store
satisfying value-uniqueness, `replaceList` with two records sharing the
text "a" yields a store holding two entries with text "a": the
value-uniqueness invariant is not preserved by `replaceList`. -/
theorem C2_replaceList_violates_value_uniqueness :
    valueUnique [⟨"c"⟩] ∧
    ¬ valueUnique (TodoList.replaceList [⟨"c"⟩]
      [⟨"a", false⟩, ⟨"a", true⟩]).1 := by
  constructor
  · decide
  · decide

/-- Claim C7, counterexample: with a malformed blob stored under the key,
`load()` raises the `SyntaxError` from `JSON.parse` instead of recovering
locally — contradicting the claim that it does not throw. -/
theorem C7_counterexample_malformed_blob_raises :
    LocalStorage.load .malformed [⟨"a"⟩] = .error .syntaxError := rfl

/-- Claim C7 (amended): when the key is absent `load` leaves the Store
untouched, does not notify and does not throw; when a well-formed
snapshot is present it hands the parsed records to `replaceList`; when
the stored blob is malformed the Store is left untouched but the
`SyntaxError` from `JSON.parse` propagates out of `load` (it is not
recovered locally). -/
theorem C7_load_absent_noop_malformed_raises
    (st : List TodoItem) (rs : List RawRecord) :
    LocalStorage.load .absent st = .ok (st, 0) ∧
    LocalStorage.load (.records rs) st = .ok (TodoList.replaceList st rs) ∧
    LocalStorage.load .malformed st = .error .syntaxError :=
  ⟨rfl, rfl, rfl⟩

/-- Claim C3, counterexample: with two registered callbacks where the
first raises, `notify` invokes only the first — the remaining callback
is not invoked and the error propagates out of the notification pass. -/
theorem C3_counterexample_throwing_callback_aborts :
    observerMixin.notifyRun [⟨1, true⟩, ⟨2, false⟩] = ([⟨1, true⟩], true) ∧
    (⟨2, false⟩ : Callback) ∉
      (observerMixin.notifyRun [⟨1, true⟩, ⟨2, false⟩]).1 := by
  constructor
  · rfl
  · decide

/-- Claim C3 (amended): a callback failure is not isolated — when the
callbacks before `c` all run normally and `c` raises, `notify` invokes
exactly the callbacks up to and including `c`, the callbacks registered
after `c` are not invoked, and the error propagates out of the
notification pass to the triggering mutation. -/
theorem C3_notify_aborts_at_first_throwing_callback
    (pre : List Callback) (c : Callback) (post : List Callback)
    (hpre : ∀ x ∈ pre, x.throws = false) (hc : c.throws = true) :
    observerMixin.notifyRun (pre ++ c :: post) = (pre ++ [c], true) := by
  induction pre with
  | nil => simp [observerMixin.notifyRun, hc]
  | cons x xs ih =>
      have hx : x.throws = false := hpre x (by simp)
      have hxs : ∀ y ∈ xs, y.throws = false := fun y hy => hpre y (by simp [hy])
      simp [observerMixin.notifyRun, hx, ih hxs]

/-- Witness for C3: concrete run with one normal callback before and one
registered after the throwing callback. -/
theorem C3_notify_aborts_witness :
    observerMixin.notifyRun
      ([⟨0, false⟩] ++ (⟨1, true⟩ : Callback) :: [⟨2, false⟩]) =
      ([⟨0, false⟩] ++ [⟨1, true⟩], true) :=
  C3_notify_aborts_at_first_throwing_callback
    [⟨0, false⟩] ⟨1, true⟩ [⟨2, false⟩] (by decide) rfl

/-- Claim C4, counterexample: on a store already containing an Entry with
text "a", `add(⟨"a"⟩)` followed by `add(⟨"a"⟩)` fires zero notifications
in total, not exactly once as claimed for every store state. -/
theorem C4_counterexample_double_add_zero_notifies :
    (TodoList.add [⟨"a"⟩] ⟨"a"⟩).2.2 +
      (TodoList.add (TodoList.add [⟨"a"⟩] ⟨"a"⟩).1 ⟨"a"⟩).2.2 = 0 ∧
    ¬ ((TodoList.add [⟨"a"⟩] ⟨"a"⟩).2.2 +
      (TodoList.add (TodoList.add [⟨"a"⟩] ⟨"a"⟩).1 ⟨"a"⟩).2.2 = 1) := by
  constructor
  · decide
  · decide

/-- Claim C4 (amended): if an equal-by-value Entry already exists,
`add(e)` returns false, performs no mutation and fires no notification;
otherwise it appends `e`, notifies exactly once and returns true.  Hence
`add(e)` followed by `add(e)` has the second call return false and leave
the store unchanged, and the two calls notify exactly once in total when
`e` was not already present — and zero times in total when it was. -/
theorem C4_add_rejects_duplicates (data : List TodoItem) (i : TodoItem) :
    (TodoList.existsItem data i = true →
      TodoList.add data i = (data, false, 0)) ∧
    (TodoList.existsItem data i = false →
      TodoList.add data i = (data ++ [i], true, 1)) ∧
    TodoList.add (TodoList.add data i).1 i = ((TodoList.add data i).1, false, 0) ∧
    (TodoList.add data i).2.2 + (TodoList.add (TodoList.add data i).1 i).2.2 =
      (if TodoList.existsItem data i then 0 else 1) := by
  by_cases h : TodoList.existsItem data i = true
  · refine ⟨fun _ => by simp [TodoList.add, h], fun h' => by simp [h] at h', ?_, ?_⟩
    · simp [TodoList.add, h]
    · simp [TodoList.add, h]
  · have h' : TodoList.existsItem data i = false := by simpa using h
    have hsnd : TodoList.existsItem (data ++ [i]) i = true :=
      existsItem_append_self data i
    refine ⟨fun hh => by simp [hh] at h', fun _ => by simp [TodoList.add, h'], ?_, ?_⟩
    · simp [TodoList.add, h', hsnd]
    · simp [TodoList.add, h', hsnd]

/-- Witness for C4: on an empty store, adding Entry "a" inserts and
notifies once; on the store `[⟨"a"⟩]`, adding Entry "a" is rejected with
no mutation and no notification. -/
theorem C4_add_rejects_duplicates_witness :
    TodoList.add [] ⟨"a"⟩ = ([⟨"a"⟩], true, 1) ∧
    TodoList.add [⟨"a"⟩] ⟨"a"⟩ = ([⟨"a"⟩], false, 0) :=
  ⟨(C4_add_rejects_duplicates [] ⟨"a"⟩).2.1 (by decide),
   (C4_add_rejects_duplicates [⟨"a"⟩] ⟨"a"⟩).1 (by decide)⟩

/-- Claim C5: when no stored Entry has text `t`, `deleteByText t` returns
false, mutates nothing and fires no notification; when `findByText`
locates an Entry `j` (the first stored item with text `t`), that
occurrence is removed from the store, `notify` is called once and true is
returned. -/
theorem C5_deleteByText_found_removed_notified
    (data : List TodoItem) (t : String) :
    ((∀ i ∈ data, i.text ≠ t) →
      TodoList.deleteByText data t = (data, false, 0)) ∧
    (∀ j, data.find? (fun i => i.text == t) = some j →
      j ∈ data ∧ j.text = t ∧
      TodoList.deleteByText data t =
        (data.eraseP (fun i => i.text == t), true, 1) ∧
      (TodoList.deleteByText data t).1.length + 1 = data.length ∧
      (TodoList.deleteByText data t).1.count j + 1 = data.count j) := by
  constructor
  · intro hnone
    have hfind : data.find? (fun i => i.text == t) = none := by
      rw [List.find?_eq_none]
      intro x hx
      simpa using hnone x hx
    simp [TodoList.deleteByText, hfind]
  · intro j hfind
    have hmem : j ∈ data := List.mem_of_find?_eq_some hfind
    have hjt : j.text = t := by
      have := List.find?_some hfind
      simpa using this
    have hdel : TodoList.deleteByText data t =
        (data.eraseP (fun i => i.text == t), true, 1) := by
      simp [TodoList.deleteByText, hfind]
    obtain ⟨l₁, l₂, hl, hb, he⟩ :=
      find?_some_decomp (fun i => i.text == t) data j hfind
    refine ⟨hmem, hjt, hdel, ?_, ?_⟩
    · rw [hdel, he, hl]
      simp only [List.length_append, List.length_cons]
      omega
    · rw [hdel, he, hl]
      simp only [List.count_append, List.count_cons_self]
      omega

/-- Witness for C5: on the store `[⟨"a"⟩, ⟨"b"⟩]`, deleting text "z"
finds nothing and is a silent no-op, while deleting text "b" removes the
Entry "b" and notifies once. -/
theorem C5_deleteByText_witness :
    TodoList.deleteByText [⟨"a"⟩, ⟨"b"⟩] "z" = ([⟨"a"⟩, ⟨"b"⟩], false, 0) ∧
    TodoList.deleteByText [⟨"a"⟩, ⟨"b"⟩] "b" =
      (([⟨"a"⟩, ⟨"b"⟩] : List TodoItem).eraseP
        (fun i => i.text == "b"), true, 1) :=
  ⟨(C5_deleteByText_found_removed_notified [⟨"a"⟩, ⟨"b"⟩] "z").1 (by decide),
   ((C5_deleteByText_found_removed_notified [⟨"a"⟩, ⟨"b"⟩] "b").2
     ⟨"b"⟩ (by decide)).2.2.1⟩

/-- Claim C6: `CE.execute` routes an add command to `TodoList.add` and
returns its boolean; routes a delete-by-text command to
`TodoList.deleteByText` and returns its boolean; and treats update,
clear and every unknown command kind as a no-op on the store that
returns `undefined` without throwing or notifying. -/
theorem C6_execute_routing (data : List TodoItem) (i : TodoItem)
    (t s : String) :
    CE.execute data (.add i) =
      (some (TodoList.add data i).2.1,
        (TodoList.add data i).1, (TodoList.add data i).2.2) ∧
    CE.execute data (.deleteByText t) =
      (some (TodoList.deleteByText data t).2.1,
        (TodoList.deleteByText data t).1, (TodoList.deleteByText data t).2.2) ∧
    CE.execute data .update = (none, data, 0) ∧
    CE.execute data .clear = (none, data, 0) ∧
    CE.execute data (.unknown s) = (none, data, 0) :=
  ⟨rfl, rfl, rfl, rfl, rfl⟩

/-- Claim C8, counterexample: `add(null)` on an empty store does not
raise — the `some` predicate is never evaluated, so `exists` returns
false, the `null` payload is inserted into the set, `notify` fires and
the call returns true. -/
theorem C8_counterexample_add_null_empty_store :
    TodoList.addNull [] = .ok ([none], true, 1) := rfl

/-- Claim C8 (amended): `add(null)` raises a `TypeError` exactly when the
store is non-empty (the first `equals` evaluation reads `null.text`); on
an empty store it is silently accepted: the `null` payload is inserted
and observers are notified. -/
theorem C8_add_null_raises_only_when_nonempty (data : List TodoItem) :
    (data = [] → TodoList.addNull data = .ok ([none], true, 1)) ∧
    (data ≠ [] → TodoList.addNull data = .error .typeError) := by
  cases data with
  | nil => exact ⟨fun _ => rfl, fun h => absurd rfl h⟩
  | cons x xs => exact ⟨fun h => by simp at h, fun _ => rfl⟩

/-- Witness for C8: concrete empty and singleton stores. -/
theorem C8_add_null_witness :
    TodoList.addNull [] = .ok ([none], true, 1) ∧
    TodoList.addNull [⟨"a"⟩] = .error .typeError :=
  ⟨(C8_add_null_raises_only_when_nonempty []).1 rfl,
   (C8_add_null_raises_only_when_nonempty [⟨"a"⟩]).2 (by simp)⟩

/-- Claim C10: `CE.execute` is not total over its public input — with a
`null`/`undefined` command the destructuring `const { type, payload } =
command` raises a `TypeError` before any routing, while with an actual
command object `execute` never throws. -/
theorem C10_execute_null_command_raises (data : List TodoItem) :
    CE.executeChecked data none = .error .typeError ∧
    ∀ c, CE.executeChecked data (some c) = .ok (CE.execute data c) :=
  ⟨rfl, fun _ => rfl⟩

/-- Claim C9: registering the same callback reference twice via
`addObserver` has no duplicating effect (set semantics), and a
subsequent `notify` on the twice-registered set invokes that callback
exactly once per notification, not twice (stated for an error-free
notification pass; `observers` is a JS `Set`, so its element list holds
no duplicates). -/
theorem C9_addObserver_idempotent_notify_once
    (obs : List Callback) (c : Callback) :
    observerMixin.addObserver (observerMixin.addObserver obs c) c =
      observerMixin.addObserver obs c ∧
    (obs.Nodup → c.throws = false → (∀ x ∈ obs, x.throws = false) →
      (observerMixin.notifyRun
        (observerMixin.addObserver
          (observerMixin.addObserver obs c) c)).1.count c = 1 ∧
      (observerMixin.notifyRun
        (observerMixin.addObserver
          (observerMixin.addObserver obs c) c)).2 = false) := by
  have haddEq : ∀ l : List Callback,
      observerMixin.addObserver l c = if c ∈ l then l else l ++ [c] := by
    intro l
    simp [observerMixin.addObserver]
  have hmemA : ∀ x ∈ observerMixin.addObserver obs c, x ∈ obs ∨ x = c := by
    intro x hx
    rw [haddEq] at hx
    by_cases hc : c ∈ obs
    · rw [if_pos hc] at hx
      exact Or.inl hx
    · rw [if_neg hc] at hx
      rcases List.mem_append.mp hx with h | h
      · exact Or.inl h
      · exact Or.inr (by simpa using h)
  have hidem : observerMixin.addObserver (observerMixin.addObserver obs c) c =
      observerMixin.addObserver obs c := by
    rw [haddEq, haddEq]
    by_cases hc : c ∈ obs
    · simp [hc]
    · rw [if_neg hc]
      have hin : c ∈ obs ++ [c] := by simp
      rw [if_pos hin]
  refine ⟨hidem, fun hnd hct hobs => ?_⟩
  rw [hidem]
  have hall : ∀ x ∈ observerMixin.addObserver obs c, x.throws = false := by
    intro x hx
    rcases hmemA x hx with h | rfl
    · exact hobs x h
    · exact hct
  rw [notifyRun_of_no_throw _ hall]
  refine ⟨?_, rfl⟩
  rw [haddEq]
  by_cases hc : c ∈ obs
  · rw [if_pos hc]
    exact List.count_eq_one_of_mem hnd hc
  · rw [if_neg hc]
    simp [List.count_append, List.count_eq_zero_of_not_mem hc]

/-- Witness for C9: a concrete observer set with one prior callback and a
twice-registered callback, which the notification pass invokes once. -/
theorem C9_addObserver_idempotent_witness :
    (observerMixin.notifyRun
      (observerMixin.addObserver
        (observerMixin.addObserver [⟨5, false⟩] ⟨7, false⟩)
        ⟨7, false⟩)).1.count ⟨7, false⟩ = 1 ∧
    (observerMixin.notifyRun
      (observerMixin.addObserver
        (observerMixin.addObserver [⟨5, false⟩] ⟨7, false⟩)
        ⟨7, false⟩)).2 = false :=
  (C9_addObserver_idempotent_notify_once [⟨5, false⟩] ⟨7, false⟩).2
    (by decide) rfl (by decide)
